import Mathlib

/-!
Verification of the Rigomator motion-interaction engine.

This file shallowly embeds the core state and per-frame logic of the
repository: the gesture classifier and metric computation (HandManager),
the zustand store (`addObject`, `removeObject`, `clearObjects`,
`resetApp`, `setHandData`, cloud-ref registry), and the per-object grab
state machine of `SmartObjectDispatcher` (PhysicsScene).  Numeric values
carried by the store and the grab logic are modelled as exact rationals;
the landmark-to-metric chain, which uses square roots and can divide by
zero, is modelled over the reals extended with the IEEE special values
(`JSNum`).  Object ids, produced by `uuidv4()` in the source, are
determinised as a strictly increasing counter `nextId`: all that the
properties use of ids is their freshness and insertion order.
-/

namespace Rigomator

/-- 3D vector with exact rational coordinates (models the JS number triples). -/
abbrev Vec3 : Type := ℚ × ℚ × ℚ

/-- Gesture enumeration, from `types.ts`. -/
inductive GestureType where
  | NONE
  | OPEN_PALM
  | CLOSED_FIST
  | PINCH
  | PEACE
  | MIDDLE_FINGER
  | POINTING
  | PINKY_UP
  | THREE_FINGERS
deriving DecidableEq, Repr

/-- The seven named confidence values, from `types.ts` (`GestureMetrics`).
Parametrised by the number type: the store carries rational values, the
extraction chain real ones. -/
structure GestureMetrics (α : Type) where
  pinch : α
  fist : α
  palm : α
  peace : α
  pointing : α
  pinkyUp : α
  threeFingers : α
deriving DecidableEq, Repr

/-- `HandData` from `types.ts` (landmark arrays are carried as lists of
projected joints). -/
structure HandData where
  present : Bool
  landmarks : List Vec3
  rigLandmarks : List Vec3
  gesture : GestureType
  metrics : GestureMetrics ℚ
  pinchDistance : ℚ
  worldPosition : Vec3
deriving DecidableEq

/-- The all-zero metrics vector (initial store value, line 118). -/
def zeroMetrics : GestureMetrics ℚ :=
  { pinch := 0, fist := 0, palm := 0, peace := 0, pointing := 0, pinkyUp := 0, threeFingers := 0 }

/-- The initial `handData` of the store (line 118 of the store module). -/
def initHandData : HandData :=
  { present := false, landmarks := [], rigLandmarks := [], gesture := GestureType.NONE,
    metrics := zeroMetrics, pinchDistance := 1, worldPosition := (0, 0, 0) }

/-- A partial `HandData` as passed to `setHandData` (a JS object literal with
a subset of the fields; absent fields are `none`). -/
structure HandDataPatch where
  present : Option Bool := none
  landmarks : Option (List Vec3) := none
  rigLandmarks : Option (List Vec3) := none
  gesture : Option GestureType := none
  metrics : Option (GestureMetrics ℚ) := none
  pinchDistance : Option ℚ := none
  worldPosition : Option Vec3 := none

/-- `setHandData` (store line 120): spread-merge of the patch over the
previous value; fields not in the patch keep their old value. -/
def setHandData (h : HandData) (p : HandDataPatch) : HandData :=
  { present := p.present.getD h.present,
    landmarks := p.landmarks.getD h.landmarks,
    rigLandmarks := p.rigLandmarks.getD h.rigLandmarks,
    gesture := p.gesture.getD h.gesture,
    metrics := p.metrics.getD h.metrics,
    pinchDistance := p.pinchDistance.getD h.pinchDistance,
    worldPosition := p.worldPosition.getD h.worldPosition }

/-- The patch published when no hand is detected
(HandManager line 628: `setHandData({ present: false, gesture: NONE })`). -/
def noHandPatch : HandDataPatch :=
  { present := some false, gesture := some GestureType.NONE }

/-- The gesture decision tree of `predictWebcam` (HandManager lines 594-605),
first-match-wins over the finger extension scores and the pinch score.
The composite metrics are computed exactly as in lines 578-592. -/
def classifyGesture (thumbScore indexScore middleScore ringScore pinkyScore pinchScore : ℚ) :
    GestureType :=
  let avgFingerExt := (indexScore + middleScore + ringScore + pinkyScore) / 4
  let threeFingersScore := indexScore * middleScore * ringScore * (1 - pinkyScore)
  let peaceScore := (indexScore + middleScore + (1 - ringScore) + (1 - pinkyScore)) / 4
  let palmScore := avgFingerExt
  if middleScore > 0.8 ∧ indexScore < 0.2 ∧ ringScore < 0.2 ∧ pinkyScore < 0.2 then
    GestureType.MIDDLE_FINGER
  else if pinchScore > 0.6 then GestureType.PINCH
  else if indexScore > 0.8 ∧ middleScore < 0.2 ∧ ringScore < 0.2 ∧ pinkyScore < 0.2 then
    GestureType.POINTING
  else if pinkyScore > 0.75 ∧ indexScore < 0.15 ∧ middleScore < 0.15 ∧ ringScore < 0.15 then
    GestureType.PINKY_UP
  else if threeFingersScore > 0.6 then GestureType.THREE_FINGERS
  else if peaceScore > 0.6 then GestureType.PEACE
  else if avgFingerExt < 0.15 then GestureType.CLOSED_FIST
  else if palmScore > 0.5 then GestureType.OPEN_PALM
  else GestureType.NONE

/-- Object kind, from `types.ts` (`PhysicsObject.type`). `cloud` is the
emitter kind. -/
inductive ObjType where
  | box
  | sphere
  | liquid
  | cloud
deriving DecidableEq, Repr

/-- Display color assigned at spawn (store line 143): liquid is fixed cyan
`#00ffff`, cloud fixed white `#ffffff`, anything else a randomised hue
`hsl(h, 80%, 60%)`.  The hue, `Math.random()*360` in the source, is taken
as a parameter. -/
inductive ObjColor where
  | cyan
  | white
  | hsl (hue : ℚ)
deriving DecidableEq, Repr

/-- The color expression of store line 143. -/
def colorFor (type : ObjType) (hue : ℚ) : ObjColor :=
  if type = ObjType.liquid then ObjColor.cyan
  else if type = ObjType.cloud then ObjColor.white
  else ObjColor.hsl hue

/-- A simulated body, from `types.ts` (`PhysicsObject`); ids are
determinised as naturals. -/
structure PhysObj where
  id : Nat
  type : ObjType
  position : Vec3
  color : ObjColor
  velocity : Option Vec3
deriving DecidableEq, Repr

/-- The object literal built inside `addObject` (store lines 141-144). -/
def newPhysObj (idv : Nat) (type : ObjType) (position : Vec3) (velocity : Option Vec3)
    (hue : ℚ) : PhysObj :=
  { id := idv, type := type, position := position, color := colorFor type hue,
    velocity := velocity }

/-- `AppSettings` from `types.ts`. -/
structure AppSettings where
  gravity : ℚ
  bloomIntensity : ℚ
  timeScale : ℚ
  bounciness : ℚ
  friction : ℚ
  chaosMode : Bool
  soundVolume : ℚ
  particleDensityHigh : Bool
  environment : Nat
  particleEffect : Nat
  spawnRate : ℚ
  handTrackingSpeed : ℚ
  headPanSensitivity : ℚ
  headRotationSensitivity : ℚ
  objectShape : Nat
  objectMaterial : Nat
  uiStyleGlass : Bool
  enableEffects : Bool
  filmGrain : ℚ
  chromaticAberration : ℚ
  vignetteIntensity : ℚ
  scanlineIntensity : ℚ
  gameOfLife : Bool
deriving DecidableEq, Repr

/-- `DEFAULT_SETTINGS` (store lines 87-115); enumerated string settings are
encoded by their index in the corresponding union type of `types.ts`
(environment `grid` = 1, effect `cyber` = 0, shape `cube` = 0,
material `glass` = 2). -/
def DEFAULT_SETTINGS : AppSettings :=
  { gravity := -9.81, bloomIntensity := 1.5, timeScale := 1, bounciness := 0.5,
    friction := 0.1, chaosMode := false, soundVolume := 1, particleDensityHigh := true,
    environment := 1, particleEffect := 0, spawnRate := 0.5, handTrackingSpeed := 0.6,
    headPanSensitivity := 0.5, headRotationSensitivity := 0.5, objectShape := 0,
    objectMaterial := 2, uiStyleGlass := true, enableEffects := true, filmGrain := 0.04,
    chromaticAberration := 0.05, vignetteIntensity := 0.1, scanlineIntensity := 0.13,
    gameOfLife := false }

/-- The slice of the zustand store the object/emitter claims touch:
the object list, the cloud-ref registry (`Record<string, Object3D>`,
modelled as an association list from id to the referenced position),
settings, the camera reset counter, and the id counter determinising
`uuidv4()`. -/
structure StoreState where
  handData : HandData
  objects : List PhysObj
  cloudRefs : List (Nat × Vec3)
  settings : AppSettings
  cameraResetTrigger : Nat
  nextId : Nat

/-- The store's creation-time state (lines 118, 129-130, 176, 200). -/
def initState : StoreState :=
  { handData := initHandData, objects := [], cloudRefs := [],
    settings := DEFAULT_SETTINGS, cameraResetTrigger := 0, nextId := 0 }

/-- `addObject` (store lines 138-148): append the new object; when the list
then exceeds the limit, keep only the newest `limit` entries
(`newObjects.slice(newObjects.length - limit)`). -/
def addObject (s : StoreState) (type : ObjType) (position : Vec3) (velocity : Option Vec3)
    (hue : ℚ) : StoreState :=
  let limit : Nat := if type = ObjType.liquid then 100 else 100
  let newObjects := s.objects ++ [newPhysObj s.nextId type position velocity hue]
  if newObjects.length > limit then
    { s with objects := newObjects.drop (newObjects.length - limit), nextId := s.nextId + 1 }
  else
    { s with objects := newObjects, nextId := s.nextId + 1 }

/-- `updateObject` (store line 149): merge data into the object with the
given id; no-op when absent.  The merged fields are passed as a function. -/
def updateObject (s : StoreState) (i : Nat) (data : PhysObj → PhysObj) : StoreState :=
  { s with objects := s.objects.map (fun o => if o.id = i then data o else o) }

/-- `clearObjects` (store line 150): empties the object list and the
cloud-ref registry in one update. -/
def clearObjects (s : StoreState) : StoreState :=
  { s with objects := [], cloudRefs := [] }

/-- `removeObject` (store line 151): filters the object with the given id
out of the list; nothing else is touched. -/
def removeObject (s : StoreState) (i : Nat) : StoreState :=
  { s with objects := s.objects.filter (fun o => o.id != i) }

/-- `addCloudRef` (store line 131): insert-or-replace the ref under the id. -/
def addCloudRef (s : StoreState) (i : Nat) (ref : Vec3) : StoreState :=
  { s with cloudRefs := (i, ref) :: s.cloudRefs.filter (fun e => e.1 != i) }

/-- `removeCloudRef` (store lines 132-136): delete the entry under the id. -/
def removeCloudRef (s : StoreState) (i : Nat) : StoreState :=
  { s with cloudRefs := s.cloudRefs.filter (fun e => e.1 != i) }

/-- `resetApp` (store line 178): empty the object list, restore default
settings, bump the camera reset counter; every other field is untouched. -/
def resetApp (s : StoreState) : StoreState :=
  { s with objects := [], settings := DEFAULT_SETTINGS,
           cameraResetTrigger := s.cameraResetTrigger + 1 }

/-- `Vector3.distanceToSquared` as used in the grab and proximity checks. -/
def distSq (a b : Vec3) : ℚ :=
  (a.1 - b.1) * (a.1 - b.1) + (a.2.1 - b.2.1) * (a.2.1 - b.2.1) +
    (a.2.2 - b.2.2) * (a.2.2 - b.2.2)

/-- The per-frame update of `isGrabbed` in `SmartObjectDispatcher`
(PhysicsScene lines 502-526): inside the pinch branch, acquire below
squared distance 12.25, release above 25, otherwise keep the previous
value; any non-pinch (or hand-absent) frame releases. -/
def grabNext (present : Bool) (gesture : GestureType) (handPos bodyPos : Vec3)
    (grabbed : Bool) : Bool :=
  if present = true ∧ gesture = GestureType.PINCH then
    let sqDist := distSq handPos bodyPos
    if sqDist < 12.25 then true
    else if sqDist > 25 then false
    else grabbed
  else false

/-- The grab spring force (PhysicsScene lines 514-518):
per axis, `(hand - body) * stiffness - velocity * damping` with
stiffness 150 and damping 10. -/
def springForce (handPos bodyPos vel : Vec3) : Vec3 :=
  ((handPos.1 - bodyPos.1) * 150 - vel.1 * 10,
   (handPos.2.1 - bodyPos.2.1) * 150 - vel.2.1 * 10,
   (handPos.2.2 - bodyPos.2.2) * 150 - vel.2.2 * 10)

/-- The physics directives one `useFrame` pass of `SmartObjectDispatcher`
issues for one object (grab and damping logic, PhysicsScene lines 501-534):
the updated grab flag, the force passed to `applyForce` (if any), whether
`wakeUp` was called, and the damping values set. -/
structure FrameOut where
  grabbed : Bool
  force : Option Vec3
  wake : Bool
  linearDamping : ℚ
  angularDamping : ℚ
deriving DecidableEq, Repr

/-- One grab/damping pass of `SmartObjectDispatcher.useFrame`
(PhysicsScene lines 501-534), for an object of the given kind at
`bodyPos` with velocity `vel` and previous grab flag `grabbed`.
Note the source applies this to every object kind: nothing in lines
501-534 tests `type` except the damping reset value. -/
def objectFrame (type : ObjType) (hand : HandData) (bodyPos vel : Vec3)
    (grabbed : Bool) : FrameOut :=
  let grabbed2 := grabNext hand.present hand.gesture hand.worldPosition bodyPos grabbed
  if grabbed2 then
    { grabbed := true, force := some (springForce hand.worldPosition bodyPos vel),
      wake := true, linearDamping := 0, angularDamping := 0.9 }
  else if hand.gesture = GestureType.CLOSED_FIST then
    { grabbed := false, force := none, wake := false,
      linearDamping := 0.99, angularDamping := 0.99 }
  else
    { grabbed := false, force := none, wake := false,
      linearDamping := if type = ObjType.cloud then 0.95 else 0.05,
      angularDamping := 0.05 }

/-- Real-valued 3D point, for the landmark-to-metric chain.  Landmark
coordinates are finite doubles, idealised as exact reals. -/
abbrev RVec3 : Type := ℝ × ℝ × ℝ

/-- An idealised JS double: a finite (exact) real or one of the IEEE
special values NaN, +Infinity, -Infinity produced by the arithmetic
(negative zero is identified with zero: the chain below never divides by
a negative zero). -/
inductive JSNum where
  | fin (x : ℝ)
  | posInf
  | negInf
  | nan

/-- JS addition on idealised doubles: NaN propagates, opposite infinities
give NaN. -/
noncomputable def JSNum.add : JSNum → JSNum → JSNum
  | nan, _ => nan
  | _, nan => nan
  | posInf, negInf => nan
  | negInf, posInf => nan
  | posInf, _ => posInf
  | _, posInf => posInf
  | negInf, _ => negInf
  | _, negInf => negInf
  | fin x, fin y => fin (x + y)

/-- JS subtraction on idealised doubles. -/
noncomputable def JSNum.sub : JSNum → JSNum → JSNum
  | nan, _ => nan
  | _, nan => nan
  | posInf, posInf => nan
  | negInf, negInf => nan
  | posInf, _ => posInf
  | negInf, _ => negInf
  | fin _, posInf => negInf
  | fin _, negInf => posInf
  | fin x, fin y => fin (x - y)

/-- JS multiplication on idealised doubles: NaN propagates, zero times an
infinity is NaN, otherwise signs combine. -/
noncomputable def JSNum.mul : JSNum → JSNum → JSNum
  | nan, _ => nan
  | _, nan => nan
  | fin x, fin y => fin (x * y)
  | fin x, posInf => if 0 < x then posInf else if x < 0 then negInf else nan
  | posInf, fin y => if 0 < y then posInf else if y < 0 then negInf else nan
  | fin x, negInf => if 0 < x then negInf else if x < 0 then posInf else nan
  | negInf, fin y => if 0 < y then negInf else if y < 0 then posInf else nan
  | posInf, posInf => posInf
  | posInf, negInf => negInf
  | negInf, posInf => negInf
  | negInf, negInf => posInf

/-- JS division on idealised doubles: `0 / 0 = NaN`, `x / 0` is a signed
infinity for finite nonzero x, a finite value over an infinity is 0, an
infinity over an infinity is NaN. -/
noncomputable def JSNum.div : JSNum → JSNum → JSNum
  | nan, _ => nan
  | _, nan => nan
  | fin x, fin y =>
      if y = 0 then (if x = 0 then nan else if 0 < x then posInf else negInf)
      else fin (x / y)
  | posInf, fin y => if 0 ≤ y then posInf else negInf
  | negInf, fin y => if 0 ≤ y then negInf else posInf
  | fin _, posInf => fin 0
  | fin _, negInf => fin 0
  | posInf, posInf => nan
  | posInf, negInf => nan
  | negInf, posInf => nan
  | negInf, negInf => nan

/-- `Math.max` on idealised doubles: NaN if either argument is NaN. -/
noncomputable def JSNum.jmax : JSNum → JSNum → JSNum
  | nan, _ => nan
  | _, nan => nan
  | posInf, _ => posInf
  | _, posInf => posInf
  | negInf, b => b
  | a, negInf => a
  | fin x, fin y => fin (max x y)

/-- `Math.min` on idealised doubles: NaN if either argument is NaN. -/
noncomputable def JSNum.jmin : JSNum → JSNum → JSNum
  | nan, _ => nan
  | _, nan => nan
  | negInf, _ => negInf
  | _, negInf => negInf
  | posInf, b => b
  | a, posInf => a
  | fin x, fin y => fin (min x y)

/-- The `dist` helper of HandManager (lines 465-467): Euclidean distance.
Its inputs are finite landmark coordinates, so the value is a finite
nonnegative real. -/
noncomputable def dist3 (a b : RVec3) : ℝ :=
  Real.sqrt ((a.1 - b.1) ^ 2 + (a.2.1 - b.2.1) ^ 2 + (a.2.2 - b.2.2) ^ 2)

/-- The `getScore` helper of `predictWebcam` (HandManager lines 558-565):
extension score of one finger from the tip and mid joints, the ratio of
their wrist distances remapped from [0.8, 1.2] to [0, 1] and clamped.
The ratio `dTip / dPip` is a JS division: it is NaN when both distances
are zero and +Infinity when only `dPip` is zero, and `Math.min`/`Math.max`
propagate NaN through the clamp. -/
noncomputable def getScore (hand : Fin 21 → RVec3) (tip pip : Fin 21) : JSNum :=
  let wrist := hand 0
  let dTip := dist3 (hand tip) wrist
  let dPip := dist3 (hand pip) wrist
  JSNum.jmin (.fin 1)
    (JSNum.jmax (.fin 0)
      ((((JSNum.fin dTip).div (.fin dPip)).sub (.fin 0.8)).div (.fin 0.4)))

/-- The `GestureMetrics` value built by `predictWebcam`
(HandManager lines 567-592) from one 21-landmark hand sample, with JS
arithmetic on the (possibly NaN) finger scores. -/
noncomputable def handMetrics (hand : Fin 21 → RVec3) : GestureMetrics JSNum :=
  let thumbScore := getScore hand 4 2
  let indexScore := getScore hand 8 6
  let middleScore := getScore hand 12 10
  let ringScore := getScore hand 16 14
  let pinkyScore := getScore hand 20 18
  let pinchDist := dist3 (hand 4) (hand 8)
  let pinchScore := JSNum.jmax (.fin 0)
    ((JSNum.fin 1).sub ((JSNum.fin pinchDist).div (.fin 0.12)))
  let avgFingerExt :=
    (((indexScore.add middleScore).add ringScore).add pinkyScore).div (.fin 4)
  let othersCurledStrict :=
    (((JSNum.fin 1).sub indexScore).mul ((JSNum.fin 1).sub middleScore)).mul
      ((JSNum.fin 1).sub ringScore)
  { pinch := pinchScore,
    palm := avgFingerExt,
    fist := JSNum.jmax (.fin 0)
      ((JSNum.fin 1).sub ((avgFingerExt.mul (.fin 3)).add (thumbScore.mul (.fin 0.5)))),
    peace := (((indexScore.add middleScore).add ((JSNum.fin 1).sub ringScore)).add
      ((JSNum.fin 1).sub pinkyScore)).div (.fin 4),
    pointing := ((indexScore.mul ((JSNum.fin 1).sub middleScore)).mul
      ((JSNum.fin 1).sub ringScore)).mul ((JSNum.fin 1).sub pinkyScore),
    pinkyUp := pinkyScore.mul othersCurledStrict,
    threeFingers := ((indexScore.mul middleScore).mul ringScore).mul
      ((JSNum.fin 1).sub pinkyScore) }

/-- Membership in the closed unit interval. -/
def inUnit (x : ℝ) : Prop := 0 ≤ x ∧ x ≤ 1

/-- An idealised double lies in [0, 1]: it is finite and its value does.
NaN and the infinities do not. -/
def inUnitJS : JSNum → Prop
  | .fin x => 0 ≤ x ∧ x ≤ 1
  | _ => False

/-- `n` successive `addObject` calls with the same kind and spawn
arguments (the shape of the repeated spawn scenarios). -/
def spawnN (k : ObjType) (p : Vec3) (v : Option Vec3) (hu : ℚ) : Nat → StoreState → StoreState
  | 0, s => s
  | n + 1, s => spawnN k p v hu n (addObject s k p v hu)

/-- The id-level shadow of one `addObject` step: append the fresh id and
keep the newest 100 when over capacity. -/
def pushId (l : List Nat) (next : Nat) : List Nat :=
  let l2 := l ++ [next]
  if l2.length > 100 then l2.drop (l2.length - 100) else l2

/-- The id-level shadow of `spawnN`: iterates `pushId` with an increasing
id counter. -/
def spawnIds : Nat → List Nat × Nat → List Nat × Nat
  | 0, st => st
  | n + 1, st => spawnIds n (pushId st.1 st.2, st.2 + 1)

/-! ## Helper lemmas -/

/-- `addObject` acts on the id trace as `pushId`, and bumps the counter. -/
theorem addObject_ids (s : StoreState) (k : ObjType) (p : Vec3) (v : Option Vec3) (hu : ℚ) :
    (addObject s k p v hu).objects.map PhysObj.id =
        pushId (s.objects.map PhysObj.id) s.nextId ∧
      (addObject s k p v hu).nextId = s.nextId + 1 := by
  by_cases hlen : s.objects.length + 1 > 100 <;>
    simp [addObject, pushId, ite_self, hlen, List.map_drop, newPhysObj]

/-- `spawnN` acts on the id trace as `spawnIds`. -/
theorem spawnN_ids (k : ObjType) (p : Vec3) (v : Option Vec3) (hu : ℚ) :
    ∀ (n : Nat) (s : StoreState),
      (spawnN k p v hu n s).objects.map PhysObj.id =
          (spawnIds n (s.objects.map PhysObj.id, s.nextId)).1 ∧
        (spawnN k p v hu n s).nextId =
          (spawnIds n (s.objects.map PhysObj.id, s.nextId)).2
  | 0, _ => ⟨rfl, rfl⟩
  | n + 1, s => by
    have h := addObject_ids s k p v hu
    have ih := spawnN_ids k p v hu n (addObject s k p v hu)
    simp only [spawnN, spawnIds]
    refine ⟨?_, ?_⟩
    · rw [ih.1, h.1, h.2]
    · rw [ih.2, h.1, h.2]

/-! ## Claims -/

set_option maxRecDepth 40000 in
/-- C1 counterexample: the claim "capacity eviction never removes an
emitter (cloud) implicitly" is false.  Spawn one cloud and then 99 boxes:
the cloud (id 0) is live in a full registry of 100; one further box spawn
triggers eviction, which drops the oldest entry — the cloud — even though
it was never explicitly removed. -/
theorem C1_cloud_evicted_cex :
    (((spawnN ObjType.box (0, 0, 0) none 0 99
          (addObject initState ObjType.cloud (0, 0, 0) none 0)).objects.map
        (fun o => (o.id, o.type))).contains (0, ObjType.cloud) = true) ∧
      (((addObject
            (spawnN ObjType.box (0, 0, 0) none 0 99
              (addObject initState ObjType.cloud (0, 0, 0) none 0))
            ObjType.box (0, 0, 0) none 0).objects.map
          (fun o => (o.id, o.type))).contains (0, ObjType.cloud) = false) := by
  decide

/-- C1 (amended): capacity eviction is kind-blind.  Every insertion leaves
a suffix of the old list extended with the new object — the oldest entries
are evicted first regardless of kind (emitters included) — and the
population is capped at 100 in total. -/
theorem C1_eviction_suffix (s : StoreState) (k : ObjType) (p : Vec3) (v : Option Vec3)
    (hu : ℚ) :
    (addObject s k p v hu).objects.length = min (s.objects.length + 1) 100 ∧
      (addObject s k p v hu).objects.IsSuffix
        (s.objects ++ [newPhysObj s.nextId k p v hu]) := by
  by_cases hlen : s.objects.length + 1 > 100
  · refine ⟨?_, ?_⟩
    · simp [addObject, ite_self, hlen, List.length_drop] <;> omega
    · simp only [addObject, ite_self]
      rw [if_pos (by simpa using hlen)]
      exact List.drop_suffix _ _
  · refine ⟨?_, ?_⟩
    · simp [addObject, ite_self, hlen] <;> omega
    · simp only [addObject, ite_self]
      rw [if_neg (by simpa using hlen)]

set_option maxRecDepth 40000 in
/-- C5: 150 sequential spawns of a non-emitter kind on the empty registry
leave exactly 100 live objects, namely the last 100 inserted in insertion
order (ids 50..149; the oldest 50 are evicted). -/
theorem C5_spawn150_keeps_last100 (k : ObjType) (p : Vec3) (v : Option Vec3) (hu : ℚ)
    (hk : k ≠ ObjType.cloud) :
    (spawnN k p v hu 150 initState).objects.length = 100 ∧
      (spawnN k p v hu 150 initState).objects.map PhysObj.id = List.range' 50 100 := by
  have h := (spawnN_ids k p v hu 150 initState).1
  have hids : (spawnIds 150 (([] : List Nat), 0)).1 = List.range' 50 100 := by decide
  have hmap : (spawnN k p v hu 150 initState).objects.map PhysObj.id
      = List.range' 50 100 := h.trans hids
  refine ⟨?_, hmap⟩
  have := congrArg List.length hmap
  simpa [List.length_map, List.length_range'] using this

/-- C5 witness: the instance with kind `box` and spawn position the
origin. -/
theorem C5_spawn150_keeps_last100_witness :
    (spawnN ObjType.box (0, 0, 0) none 0 150 initState).objects.length = 100 ∧
      (spawnN ObjType.box (0, 0, 0) none 0 150 initState).objects.map PhysObj.id
        = List.range' 50 100 :=
  C5_spawn150_keeps_last100 ObjType.box (0, 0, 0) none 0 (by decide)

/-- A hand state as published after a pinching frame: nonzero metrics.
Used to witness that the hand-absent update does not clear metrics. -/
def pinchingHand : HandData :=
  { present := true, landmarks := [], rigLandmarks := [], gesture := GestureType.PINCH,
    metrics := { pinch := 1, fist := 0, palm := 0, peace := 0, pointing := 0,
                 pinkyUp := 0, threeFingers := 0 },
    pinchDistance := 0, worldPosition := (0, 0, 0) }

/-- C2 counterexample: the claim "no hand present implies metrics all
zero" is false.  After a frame with pinch metric 1, the hand-absent update
(`setHandData({present: false, gesture: NONE})`) merges only those two
fields: present and gesture are reset but the metrics keep their previous
nonzero value. -/
theorem C2_metrics_not_zeroed_cex :
    (setHandData pinchingHand noHandPatch).present = false ∧
      (setHandData pinchingHand noHandPatch).gesture = GestureType.NONE ∧
      (setHandData pinchingHand noHandPatch).metrics ≠ zeroMetrics := by
  decide

/-- C2 (amended): when no hand sample is present the published output has
present = false and gesture = None, but the metrics vector is left at its
previous value (it is all-zero only until a hand has been seen, from the
initial store value). -/
theorem C2_absent_output (h : HandData) :
    (setHandData h noHandPatch).present = false ∧
      (setHandData h noHandPatch).gesture = GestureType.NONE ∧
      (setHandData h noHandPatch).metrics = h.metrics ∧
      initHandData.metrics = zeroMetrics :=
  ⟨rfl, rfl, rfl, rfl⟩

/-- A store holding one cloud object (id 0) with a registered cloud ref. -/
def cloudStoreCex : StoreState :=
  addCloudRef (addObject initState ObjType.cloud (0, 0, 0) none 0) 0 (0, 0, 0)

/-- C3 counterexample: the claim "remove(id) of a registered emitter also
removes its emitter entry in the same operation" is false.  Removing the
cloud object with id 0 empties the object list but leaves its `cloudRefs`
entry in place. -/
theorem C3_dangling_cloudRef_cex :
    ((removeObject cloudStoreCex 0).objects.map PhysObj.id).contains 0 = false ∧
      ((removeObject cloudStoreCex 0).cloudRefs.map Prod.fst).contains 0 = true := by
  decide

/-- C3 (amended): `removeObject` only filters the object list and leaves
the emitter registry untouched; the emitter entry is removed by the
separate `removeCloudRef` cleanup step (the component's unmount effect),
after which no object and no emitter entry with that id remains. -/
theorem C3_remove_and_unref (s : StoreState) (i : Nat) :
    (removeObject s i).cloudRefs = s.cloudRefs ∧
      (removeCloudRef (removeObject s i) i).objects.filter (fun o => o.id == i) = [] ∧
      (removeCloudRef (removeObject s i) i).cloudRefs.filter (fun e => e.1 == i) = [] := by
  refine ⟨rfl, ?_, ?_⟩
  · rw [List.filter_eq_nil_iff]
    intro o ho
    have h := List.mem_filter.mp ho
    simpa using h.2
  · rw [List.filter_eq_nil_iff]
    intro e he
    have h := List.mem_filter.mp he
    simpa using h.2

/-- C4: the grab state machine never acquires at squared distance at least
12.25, and never stays grabbed on a frame with squared distance above 25
or a non-Pinch gesture.  Since this holds for every single step, it holds
along every approach/retreat trajectory. -/
theorem C4_grab_hysteresis (present : Bool) (gesture : GestureType) (handPos bodyPos : Vec3)
    (g : Bool) :
    (12.25 ≤ distSq handPos bodyPos →
        grabNext present gesture handPos bodyPos false = false) ∧
      (25 < distSq handPos bodyPos ∨ gesture ≠ GestureType.PINCH →
        grabNext present gesture handPos bodyPos g = false) := by
  constructor
  · intro hd
    simp only [grabNext]
    split_ifs with h1 h2 h3
    · linarith
    · rfl
    · rfl
    · rfl
  · intro hor
    simp only [grabNext]
    split_ifs with h1 h2 h3
    · rcases hor with hd | hg
      · linarith
      · exact absurd h1.2 hg
    · rfl
    · rcases hor with hd | hg
      · exact absurd hd (by simpa using h3)
      · exact absurd h1.2 hg
    · rfl

/-- C4 witness: at squared distance 16 no acquisition happens, and a
non-Pinch gesture releases a held object. -/
theorem C4_grab_hysteresis_witness :
    grabNext true GestureType.PINCH (4, 0, 0) (0, 0, 0) false = false ∧
      grabNext true GestureType.OPEN_PALM (0, 0, 0) (0, 0, 0) true = false :=
  ⟨(C4_grab_hysteresis true GestureType.PINCH (4, 0, 0) (0, 0, 0) false).1
     (by norm_num [distSq]),
   (C4_grab_hysteresis true GestureType.OPEN_PALM (0, 0, 0) (0, 0, 0) true).2
     (Or.inr (by decide))⟩

/-- C6: whenever the pinch score exceeds 0.6 and the MiddleFinger rule
does not match, the classifier outputs Pinch — regardless of how many of
the later rules (Pointing, PinkyUp, ThreeFingers, Peace, ClosedFist,
OpenPalm) would also fire. -/
theorem C6_pinch_priority (thumbScore indexScore middleScore ringScore pinkyScore
    pinchScore : ℚ) (hpinch : pinchScore > 0.6)
    (hmid : ¬(middleScore > 0.8 ∧ indexScore < 0.2 ∧ ringScore < 0.2 ∧ pinkyScore < 0.2)) :
    classifyGesture thumbScore indexScore middleScore ringScore pinkyScore pinchScore
      = GestureType.PINCH := by
  simp only [classifyGesture]
  rw [if_neg hmid, if_pos hpinch]

/-- C6 witness: an adversarial score tuple with all four non-thumb fingers
scored so that ThreeFingers, Peace and OpenPalm would all match, and pinch
score 1: Pinch still wins. -/
theorem C6_pinch_priority_witness :
    classifyGesture 0 1 1 1 0 1 = GestureType.PINCH :=
  C6_pinch_priority 0 1 1 1 0 1 (by norm_num) (by norm_num)

/-- C7 counterexample: the claim "an emitter (cloud) object is never
grabbed" is false.  With a present pinching hand at squared distance 1
from a cloud body, the frame pass sets the cloud's grab flag and applies
the spring force to it. -/
theorem C7_cloud_grabbed_cex :
    (objectFrame ObjType.cloud pinchingHand (1, 0, 0) (0, 0, 0) false).grabbed = true ∧
      (objectFrame ObjType.cloud pinchingHand (1, 0, 0) (0, 0, 0) false).force
        = some (-150, 0, 0) := by
  norm_num [objectFrame, grabNext, distSq, springForce, pinchingHand]

/-- C7 (amended): the grab logic is kind-blind — the grab flag, the
applied force and the wake-up call that one frame pass produces are
identical for every object kind, cloud (emitter) included; only the
baseline damping reset differs by kind. -/
theorem C7_grab_ignores_kind (t : ObjType) (hand : HandData) (bodyPos vel : Vec3)
    (g : Bool) :
    (objectFrame t hand bodyPos vel g).grabbed
        = (objectFrame ObjType.box hand bodyPos vel g).grabbed ∧
      (objectFrame t hand bodyPos vel g).force
        = (objectFrame ObjType.box hand bodyPos vel g).force ∧
      (objectFrame t hand bodyPos vel g).wake
        = (objectFrame ObjType.box hand bodyPos vel g).wake := by
  simp only [objectFrame]
  cases h : grabNext hand.present hand.gesture hand.worldPosition bodyPos g <;>
    by_cases hf : hand.gesture = GestureType.CLOSED_FIST <;> simp [h, hf]

/-- C8: on every frame on which the object ends up grabbed, the spring
force `(hand - body) * 150 - velocity * 10` is applied per axis, the body
is woken, linear damping is set to 0 and angular damping to 0.9. -/
theorem C8_grab_directives (t : ObjType) (hand : HandData) (bodyPos vel : Vec3) (g : Bool)
    (hg : (objectFrame t hand bodyPos vel g).grabbed = true) :
    (objectFrame t hand bodyPos vel g).force
        = some ((hand.worldPosition.1 - bodyPos.1) * 150 - vel.1 * 10,
                (hand.worldPosition.2.1 - bodyPos.2.1) * 150 - vel.2.1 * 10,
                (hand.worldPosition.2.2 - bodyPos.2.2) * 150 - vel.2.2 * 10) ∧
      (objectFrame t hand bodyPos vel g).wake = true ∧
      (objectFrame t hand bodyPos vel g).linearDamping = 0 ∧
      (objectFrame t hand bodyPos vel g).angularDamping = 0.9 := by
  simp only [objectFrame] at hg ⊢
  cases h : grabNext hand.present hand.gesture hand.worldPosition bodyPos g
  · rw [h] at hg
    by_cases hf : hand.gesture = GestureType.CLOSED_FIST <;> simp [hf] at hg
  · simp [h, springForce]

/-- C8 witness: a grabbed frame at body position (1,0,0), velocity 0. -/
theorem C8_grab_directives_witness :
    (objectFrame ObjType.box pinchingHand (1, 0, 0) (0, 0, 0) false).force
        = some ((pinchingHand.worldPosition.1 - (1 : ℚ)) * 150 - 0 * 10,
                (pinchingHand.worldPosition.2.1 - (0 : ℚ)) * 150 - 0 * 10,
                (pinchingHand.worldPosition.2.2 - (0 : ℚ)) * 150 - 0 * 10) ∧
      (objectFrame ObjType.box pinchingHand (1, 0, 0) (0, 0, 0) false).wake = true ∧
      (objectFrame ObjType.box pinchingHand (1, 0, 0) (0, 0, 0) false).linearDamping = 0 ∧
      (objectFrame ObjType.box pinchingHand (1, 0, 0) (0, 0, 0) false).angularDamping
        = 0.9 :=
  C8_grab_directives ObjType.box pinchingHand (1, 0, 0) (0, 0, 0) false
    (by norm_num [objectFrame, grabNext, distSq, pinchingHand])

/-- C10: `resetApp` empties the object list and restores the default
settings but leaves the emitter registry (`cloudRefs`) untouched, so every
emitter entry registered before the reset is still present afterwards
while no live object remains; `clearObjects` is the operation that empties
both the object list and `cloudRefs` in one step. -/
theorem C10_reset_preserves_cloudRefs (s : StoreState) :
    (resetApp s).objects = [] ∧ (resetApp s).settings = DEFAULT_SETTINGS ∧
      (resetApp s).cloudRefs = s.cloudRefs ∧
      (clearObjects s).objects = [] ∧ (clearObjects s).cloudRefs = [] :=
  ⟨rfl, rfl, rfl, rfl, rfl⟩

/-- A clamp of any real to [0, 1] lands in the unit interval. -/
theorem inUnit_clamp (x : ℝ) : inUnit (min 1 (max 0 x)) :=
  ⟨le_min zero_le_one (le_max_left 0 x), min_le_left 1 _⟩

/-- The unit interval is closed under multiplication. -/
theorem inUnit_mul {a b : ℝ} (ha : inUnit a) (hb : inUnit b) : inUnit (a * b) :=
  ⟨mul_nonneg ha.1 hb.1, mul_le_one₀ ha.2 hb.1 hb.2⟩

/-- The unit interval is closed under reflection x ↦ 1 - x. -/
theorem inUnit_one_sub {a : ℝ} (ha : inUnit a) : inUnit (1 - a) :=
  ⟨by linarith [ha.2], by linarith [ha.1]⟩

/-- Addition of finite doubles is exact. -/
theorem JSNum.add_fin (x y : ℝ) : JSNum.add (.fin x) (.fin y) = .fin (x + y) := rfl

/-- Subtraction of finite doubles is exact. -/
theorem JSNum.sub_fin (x y : ℝ) : JSNum.sub (.fin x) (.fin y) = .fin (x - y) := rfl

/-- Multiplication of finite doubles is exact. -/
theorem JSNum.mul_fin (x y : ℝ) : JSNum.mul (.fin x) (.fin y) = .fin (x * y) := rfl

/-- `Math.max` of finite doubles is the real maximum. -/
theorem JSNum.jmax_fin (x y : ℝ) : JSNum.jmax (.fin x) (.fin y) = .fin (max x y) := rfl

/-- `Math.min` of finite doubles is the real minimum. -/
theorem JSNum.jmin_fin (x y : ℝ) : JSNum.jmin (.fin x) (.fin y) = .fin (min x y) := rfl

/-- Division of finite doubles with a nonzero denominator is exact. -/
theorem JSNum.div_fin (x y : ℝ) (hy : y ≠ 0) :
    JSNum.div (.fin x) (.fin y) = .fin (x / y) := by
  simp [JSNum.div, hy]

/-- A finger whose tip and mid joints both lie at the wrist has a NaN
extension score: the distance ratio is the JS division 0 / 0, and the
clamp propagates the NaN. -/
theorem getScore_nan (hand : Fin 21 → RVec3) (tip pip : Fin 21)
    (ht : dist3 (hand tip) (hand 0) = 0) (hp : dist3 (hand pip) (hand 0) = 0) :
    getScore hand tip pip = JSNum.nan := by
  simp only [getScore]
  rw [ht, hp]
  simp [JSNum.div, JSNum.sub, JSNum.jmax, JSNum.jmin]

/-- Unless both of a finger's measured joints coincide with the wrist,
its extension score is finite and in [0, 1]: with only the mid joint at
the wrist the ratio is +Infinity and the clamp returns 1; otherwise the
ratio is finite and the clamp bounds it. -/
theorem inUnitJS_getScore (hand : Fin 21 → RVec3) (tip pip : Fin 21)
    (h : dist3 (hand tip) (hand 0) ≠ 0 ∨ dist3 (hand pip) (hand 0) ≠ 0) :
    inUnitJS (getScore hand tip pip) := by
  simp only [getScore]
  by_cases hp : dist3 (hand pip) (hand 0) = 0
  · have ht : dist3 (hand tip) (hand 0) ≠ 0 := by
      rcases h with h | h
      · exact h
      · exact absurd hp h
    have ht2 : 0 < dist3 (hand tip) (hand 0) :=
      lt_of_le_of_ne (Real.sqrt_nonneg _) (Ne.symm ht)
    rw [hp]
    norm_num [JSNum.div, JSNum.sub, JSNum.jmax, JSNum.jmin, ht, ht2, inUnitJS]
  · rw [JSNum.div_fin _ _ hp, JSNum.sub_fin, JSNum.div_fin _ _ (by norm_num),
      JSNum.jmax_fin, JSNum.jmin_fin]
    exact inUnit_clamp _

/-- A double in [0, 1] is a finite real in [0, 1]. -/
theorem inUnitJS_elim {a : JSNum} (h : inUnitJS a) :
    ∃ x, a = JSNum.fin x ∧ 0 ≤ x ∧ x ≤ 1 := by
  cases a with
  | fin x => exact ⟨x, rfl, h⟩
  | posInf => exact h.elim
  | negInf => exact h.elim
  | nan => exact h.elim

/-- The fully degenerate hand sample: every landmark coincides with the
wrist. -/
def zeroHand : Fin 21 → RVec3 := fun _ => (0, 0, 0)

/-- C9 counterexample: the claim "every metric component is in [0, 1],
including degenerate samples where landmarks coincide with the wrist" is
false.  On the sample whose 21 landmarks all coincide with the wrist,
every finger's distance ratio is the JS division 0 / 0 = NaN, and the
palm metric (the average finger extension) is NaN — not in [0, 1]. -/
theorem C9_nan_metrics_cex :
    (handMetrics zeroHand).palm = JSNum.nan ∧
      ¬ inUnitJS (handMetrics zeroHand).palm := by
  have h0 : ∀ i j : Fin 21, dist3 (zeroHand i) (zeroHand j) = 0 := by
    intro i j
    norm_num [dist3, zeroHand, Real.sqrt_zero]
  have hs : ∀ tip pip : Fin 21, getScore zeroHand tip pip = JSNum.nan := fun tip pip =>
    getScore_nan zeroHand tip pip (h0 _ _) (h0 _ _)
  have hpalm : (handMetrics zeroHand).palm = JSNum.nan := by
    dsimp only [handMetrics]
    simp only [hs]
    rfl
  refine ⟨hpalm, ?_⟩
  rw [hpalm]
  simp [inUnitJS]

/-- C9 (amended): every component of the computed metrics vector lies in
[0, 1] for every 21-landmark sample in which no finger has both its tip
and its mid joint at the wrist position (the 0 / 0 ratio).  A finger
whose mid joint alone coincides with the wrist still scores 1, inside
the bound; only the fully degenerate fingers produce NaN components. -/
theorem C9_metrics_in_unit_unless_degenerate (hand : Fin 21 → RVec3)
    (hThumb : dist3 (hand 4) (hand 0) ≠ 0 ∨ dist3 (hand 2) (hand 0) ≠ 0)
    (hIndex : dist3 (hand 8) (hand 0) ≠ 0 ∨ dist3 (hand 6) (hand 0) ≠ 0)
    (hMiddle : dist3 (hand 12) (hand 0) ≠ 0 ∨ dist3 (hand 10) (hand 0) ≠ 0)
    (hRing : dist3 (hand 16) (hand 0) ≠ 0 ∨ dist3 (hand 14) (hand 0) ≠ 0)
    (hPinky : dist3 (hand 20) (hand 0) ≠ 0 ∨ dist3 (hand 18) (hand 0) ≠ 0) :
    inUnitJS (handMetrics hand).pinch ∧ inUnitJS (handMetrics hand).fist ∧
      inUnitJS (handMetrics hand).palm ∧ inUnitJS (handMetrics hand).peace ∧
      inUnitJS (handMetrics hand).pointing ∧ inUnitJS (handMetrics hand).pinkyUp ∧
      inUnitJS (handMetrics hand).threeFingers := by
  obtain ⟨tS, hTeq, hT0, hT1⟩ := inUnitJS_elim (inUnitJS_getScore hand 4 2 hThumb)
  obtain ⟨iS, hIeq, hI0, hI1⟩ := inUnitJS_elim (inUnitJS_getScore hand 8 6 hIndex)
  obtain ⟨mS, hMeq, hM0, hM1⟩ := inUnitJS_elim (inUnitJS_getScore hand 12 10 hMiddle)
  obtain ⟨rS, hReq, hR0, hR1⟩ := inUnitJS_elim (inUnitJS_getScore hand 16 14 hRing)
  obtain ⟨pS, hPeq, hP0, hP1⟩ := inUnitJS_elim (inUnitJS_getScore hand 20 18 hPinky)
  have hD : (0 : ℝ) ≤ dist3 (hand 4) (hand 8) := Real.sqrt_nonneg _
  have hdiv4 : ∀ x : ℝ, JSNum.div (.fin x) (.fin 4) = .fin (x / 4) := fun x =>
    JSNum.div_fin x 4 (by norm_num)
  have hdiv012 : ∀ x : ℝ, JSNum.div (.fin x) (.fin 0.12) = .fin (x / 0.12) := fun x =>
    JSNum.div_fin x 0.12 (by norm_num)
  dsimp only [handMetrics]
  rw [hTeq, hIeq, hMeq, hReq, hPeq]
  simp only [JSNum.add_fin, JSNum.sub_fin, JSNum.mul_fin, JSNum.jmax_fin, JSNum.jmin_fin,
    hdiv4, hdiv012]
  refine ⟨?_, ?_, ?_, ?_, ?_, ?_, ?_⟩
  · refine ⟨le_max_left _ _, max_le zero_le_one ?_⟩
    have : (0 : ℝ) ≤ dist3 (hand 4) (hand 8) / 0.12 := by positivity
    linarith
  · refine ⟨le_max_left _ _, max_le zero_le_one ?_⟩
    linarith
  · exact ⟨by linarith, by linarith⟩
  · exact ⟨by linarith, by linarith⟩
  · exact inUnit_mul (inUnit_mul (inUnit_mul ⟨hI0, hI1⟩ (inUnit_one_sub ⟨hM0, hM1⟩))
      (inUnit_one_sub ⟨hR0, hR1⟩)) (inUnit_one_sub ⟨hP0, hP1⟩)
  · exact inUnit_mul ⟨hP0, hP1⟩ (inUnit_mul (inUnit_mul (inUnit_one_sub ⟨hI0, hI1⟩)
      (inUnit_one_sub ⟨hM0, hM1⟩)) (inUnit_one_sub ⟨hR0, hR1⟩))
  · exact inUnit_mul (inUnit_mul (inUnit_mul ⟨hI0, hI1⟩ ⟨hM0, hM1⟩) ⟨hR0, hR1⟩)
      (inUnit_one_sub ⟨hP0, hP1⟩)

/-- A non-degenerate hand sample: the wrist at the origin and every other
joint at distance 1 from it. -/
def unitHand : Fin 21 → RVec3 := fun i => if i = 0 then (0, 0, 0) else (1, 0, 0)

/-- Every non-wrist joint of `unitHand` is at distance 1 from the wrist. -/
theorem unitHand_dist (i : Fin 21) (hi : i ≠ 0) :
    dist3 (unitHand i) (unitHand 0) = 1 := by
  norm_num [unitHand, dist3, hi, Real.sqrt_one]

/-- C9 witness: the amended bound holds at a concrete non-degenerate
sample. -/
theorem C9_metrics_witness :
    inUnitJS (handMetrics unitHand).pinch ∧ inUnitJS (handMetrics unitHand).fist ∧
      inUnitJS (handMetrics unitHand).palm ∧ inUnitJS (handMetrics unitHand).peace ∧
      inUnitJS (handMetrics unitHand).pointing ∧ inUnitJS (handMetrics unitHand).pinkyUp ∧
      inUnitJS (handMetrics unitHand).threeFingers :=
  C9_metrics_in_unit_unless_degenerate unitHand
    (Or.inl (by rw [unitHand_dist 4 (by decide)]; exact one_ne_zero))
    (Or.inl (by rw [unitHand_dist 8 (by decide)]; exact one_ne_zero))
    (Or.inl (by rw [unitHand_dist 12 (by decide)]; exact one_ne_zero))
    (Or.inl (by rw [unitHand_dist 16 (by decide)]; exact one_ne_zero))
    (Or.inl (by rw [unitHand_dist 20 (by decide)]; exact one_ne_zero))

end Rigomator
